import Mathlib

/-!
Shallow embedding of a small backtracking regular-expression engine
(compiler `ReCompiler::compile` / `compile_phrase` and matcher
`match_pattern` / `Matcher::*` / `match_char` from `src/main.rs`),
together with theorems settling the specification claims.

Modelling conventions:
* Rust `panic!` aborts the process; it is modelled by the `.abort` outcome
  carrying an `AbortKind` that identifies the panic site.
* The compiler's top-level loop does not terminate on some inputs
  (a top-level `|` is never consumed); all potentially looping functions
  therefore take an explicit fuel argument, and `.spin` is the
  fuel-exhausted outcome.  A function diverges on an input exactly when it
  returns `.spin` for every fuel.
* Rust iterators over characters / items are modelled as `List Char` /
  `List ReItem`; `Peekable::peek` is inspection of the list head.
* `usize::MAX` is the exact number `2 ^ 64 - 1`.
-/

/-- One Rust `panic!` site of the program. -/
inductive AbortKind where
  | classTerminator                    -- "found ']' outside of character class"
  | invalidEscape (c : Char)           -- "Invalid escape: {c}"
  | classEscape (c : Char)             -- "Not supported in character class: {c}"
  | invalidGroupClose (c : Char)       -- "Invalid group close: {x}"
  | groupNotClosed                     -- "Group not closed"
  | anchorStartNotMatchable            -- "Invalid: start anchor not at start"
  | quantZeroPlusNotMatchable          -- "Invalid: quant 0+ not matchable"
  | quantOnePlusNotMatchable           -- "Invalid: quant 1+ not matchable"
  | quantZeroOrOneNotMatchable         -- "Invalid: quant 0-1 not matchable"
  | groupNotMatchable                  -- "Invalid: alts not matchable"
  | groupEndNotMatchable               -- "Invalid: end not matchable"
  | backrefNotMatchable                -- "Invalid: backreferences not matchable"
  | indexOutOfBounds                   -- slice index out of bounds
deriving DecidableEq, Repr

/-- Outcome of running a piece of the Rust program: a value, a `panic!`
(process abort), or fuel exhaustion (models non-termination). -/
inductive CRes (α : Type) where
  | ok    : α → CRes α
  | abort : AbortKind → CRes α
  | spin  : CRes α
deriving DecidableEq, Repr

/-- The `ReItem` AST of the source, verbatim. -/
inductive ReItem where
  | Char (c : Char)
  | Digit
  | Alphanum
  | CharClass (s : String)
  | NegCharClass (s : String)
  | AnchorStart
  | AnchorEnd
  | QuantZeroPlus
  | QuantOnePlus
  | QuantZeroOrOne
  | Wildcard
  | Group (n : Nat) (alts : List (List ReItem))
  | GroupEnd (n : Nat)
  | Backreference (n : Nat)

/-- `type Phrase = Vec<ReItem>`. -/
abbrev Phrase := List ReItem

/-- The `CompileState` state machine of the source. -/
inductive CompileState where
  | None
  | Beginning
  | Escaped
  | CharClassStart
  | CharClass (s : String)
  | NegCharClass (s : String)
  | Group

/-- The `CompileResult` struct of the source. -/
structure CompileResult where
  phrases : List Phrase
  groups : Nat

mutual

/-- `ReCompiler::compile_phrase`: the per-phrase state-machine loop.
`items` is the accumulated item vector, `groups` the running group counter
(the `ReCompiler` receiver state), and the result carries the finished
phrase, the updated counter and the unconsumed input (a `|` or `)`
terminator is left unconsumed, as in the source). -/
def compile_phrase (fuel : Nat) (st : CompileState) (items : List ReItem)
    (groups : Nat) (input : List Char) : CRes (List ReItem × Nat × List Char) :=
  match fuel with
  | 0 => .spin
  | fuel + 1 =>
    match input with
    | [] => .ok (items, groups, [])
    | c :: rest =>
      match st with
      | .None | .Beginning =>
        if c = '\\' then compile_phrase fuel .Escaped items groups rest
        else if c = '[' then compile_phrase fuel .CharClassStart items groups rest
        else if c = ']' then .abort .classTerminator
        else if c = '^' then
          match st with
          | .Beginning => compile_phrase fuel .None (items ++ [.AnchorStart]) groups rest
          | _ => compile_phrase fuel st (items ++ [.Char c]) groups rest
        else if c = '$' then compile_phrase fuel st (items ++ [.AnchorEnd]) groups rest
        else if c = '*' then compile_phrase fuel st (items ++ [.QuantZeroPlus]) groups rest
        else if c = '+' then compile_phrase fuel st (items ++ [.QuantOnePlus]) groups rest
        else if c = '?' then compile_phrase fuel st (items ++ [.QuantZeroOrOne]) groups rest
        else if c = '.' then compile_phrase fuel st (items ++ [.Wildcard]) groups rest
        else if c = '(' then compile_phrase fuel .Group items groups rest
        else if c = '|' ∨ c = ')' then .ok (items, groups, c :: rest)
        else compile_phrase fuel st (items ++ [.Char c]) groups rest
      | .Escaped =>
        if c = 'd' then compile_phrase fuel .None (items ++ [.Digit]) groups rest
        else if c = 'w' then compile_phrase fuel .None (items ++ [.Alphanum]) groups rest
        else if c = '\\' then compile_phrase fuel .None (items ++ [.Char c]) groups rest
        else if '1' ≤ c ∧ c ≤ '9' then
          compile_phrase fuel .None
            (items ++ [.Backreference (c.toNat - '0'.toNat - 1)]) groups rest
        else .abort (.invalidEscape c)
      | .CharClassStart =>
        if c = ']' then compile_phrase fuel .None items groups rest
        else if c = '^' then compile_phrase fuel (.NegCharClass "") items groups rest
        else compile_phrase fuel (.CharClass (String.singleton c)) items groups rest
      | .CharClass s =>
        if c = ']' then compile_phrase fuel .None (items ++ [.CharClass s]) groups rest
        else if c = '\\' then .abort (.classEscape c)
        else compile_phrase fuel (.CharClass (s.push c)) items groups rest
      | .NegCharClass s =>
        if c = ']' then compile_phrase fuel .None (items ++ [.NegCharClass s]) groups rest
        else if c = '\\' then .abort (.classEscape c)
        else compile_phrase fuel (.NegCharClass (s.push c)) items groups rest
      | .Group =>
        match compile_group_loop fuel (groups + 1) [] (c :: rest) with
        | .abort k => .abort k
        | .spin => .spin
        | .ok (grp, groups', rest') =>
          -- the source pushes `Group(group_n, grp)`, sets the state to
          -- `None`, and the loop footer consumes the `)` left by the group
          -- loop
          compile_phrase fuel .None (items ++ [.Group groups grp]) groups' (rest'.drop 1)

/-- The `loop` inside the `CompileState::Group` arm: collect alternative
phrases separated by `|` until a `)` is reached (left unconsumed). -/
def compile_group_loop (fuel : Nat) (groups : Nat) (grp : List Phrase)
    (input : List Char) : CRes (List Phrase × Nat × List Char) :=
  match fuel with
  | 0 => .spin
  | fuel + 1 =>
    match compile_phrase fuel .Beginning [] groups input with
    | .abort k => .abort k
    | .spin => .spin
    | .ok (phrase, groups', rest) =>
      match rest with
      | [] => .abort .groupNotClosed
      | c :: rest' =>
        if c = '|' then compile_group_loop fuel groups' (grp ++ [phrase]) rest'
        else if c = ')' then .ok (grp ++ [phrase], groups', c :: rest')
        else .abort (.invalidGroupClose c)

end

/-- The `while re_iter.peek().is_some()` loop of `ReCompiler::compile`. -/
def compile_loop (fuel : Nat) (groups : Nat) (phrases : List Phrase)
    (input : List Char) : CRes CompileResult :=
  match fuel with
  | 0 => .spin
  | fuel + 1 =>
    match input with
    | [] => .ok ⟨phrases, groups⟩
    | _ :: _ =>
      match compile_phrase fuel .Beginning [] groups input with
      | .abort k => .abort k
      | .spin => .spin
      | .ok (phrase, groups', rest) =>
        compile_loop fuel groups' (phrases ++ [phrase]) rest

/-- Fuel budget amply covering the compiler's call depth on an input where
it terminates (each step consumes a character or enters a group). -/
def compile_fuel (re : String) : Nat := 4 * (re.length + 2)

/-- `ReCompiler::compile`. -/
def compile (re : String) : CRes CompileResult :=
  compile_loop (compile_fuel re) 0 [] re.data

/-- The `Backref` struct of the source: a capture buffer plus its
"active" flag. -/
structure Backref where
  value : String
  active : Bool
deriving DecidableEq, Repr

/-- `Backref::new()`. -/
def Backref.new : Backref := ⟨"", false⟩

/-- The `Matcher` struct of the source: a text cursor, a pattern-item
cursor, the capture buffers and the text matched so far. -/
structure Matcher where
  text_iter : List Char
  re_iter : List ReItem
  backreferences : List Backref
  matched : String

/-- The `MatchResult` struct of the source. -/
structure MatchResult where
  matched : String
  backreferences : List Backref
  remainder : List Char
deriving DecidableEq, Repr

/-- Outcome of one matcher call: a match, a silent failure (`None`), a
`panic!`, or fuel exhaustion. -/
inductive MRes where
  | found : MatchResult → MRes
  | nomatch : MRes
  | abort : AbortKind → MRes
  | spin : MRes
deriving DecidableEq, Repr

/-- `Matcher::into_result`. -/
def Matcher.into_result (m : Matcher) : MatchResult :=
  ⟨m.matched, m.backreferences, m.text_iter⟩

/-- The character predicate `match_char` of the source.  The `panic!`
branches become `.abort` outcomes. -/
def match_char (text_char : Char) (re_item : ReItem) : CRes Bool :=
  match re_item with
  | .Char c => .ok (c == text_char)
  | .Digit => .ok text_char.isDigit
  | .Alphanum => .ok text_char.isAlphanum
  -- Rust `String::contains(char)` is character membership, modelled over
  -- the string's character list
  | .CharClass s => .ok (s.data.contains text_char)
  | .NegCharClass s => .ok (!s.data.contains text_char)
  | .AnchorStart => .abort .anchorStartNotMatchable
  | .AnchorEnd => .ok false
  | .QuantZeroPlus => .abort .quantZeroPlusNotMatchable
  | .QuantOnePlus => .abort .quantOnePlusNotMatchable
  | .QuantZeroOrOne => .abort .quantZeroOrOneNotMatchable
  | .Wildcard => .ok true
  | .Group _ _ => .abort .groupNotMatchable
  | .GroupEnd _ => .abort .groupEndNotMatchable
  | .Backreference _ => .abort .backrefNotMatchable

/-- Append a matched character to every active capture buffer
(the `for bref in &mut self.backreferences` loop of `match_here`). -/
def push_active (brs : List Backref) (c : Char) : List Backref :=
  brs.map fun b => if b.active then { b with value := b.value.push c } else b

/-- `usize::MAX`, the upper repeat bound the source uses for `*` and `+`. -/
def usize_max : Nat := 2 ^ 64 - 1

mutual

/-- `Matcher::match_here`, the core recursive matching step. -/
def match_here (fuel : Nat) (m : Matcher) : MRes :=
  match fuel with
  | 0 => .spin
  | fuel + 1 =>
    match m.re_iter with
    | [] => .found m.into_result
    | r0 :: .QuantZeroPlus :: rest =>
      match_quant_greedy fuel { m with re_iter := rest } r0 0 usize_max
    | r0 :: .QuantOnePlus :: rest =>
      match_quant_greedy fuel { m with re_iter := rest } r0 1 usize_max
    | r0 :: .QuantZeroOrOne :: rest =>
      match_quant_greedy fuel { m with re_iter := rest } r0 0 1
    | .Group n alts :: rest => match_group fuel { m with re_iter := rest } n alts
    | .GroupEnd n :: rest => match_group_end fuel { m with re_iter := rest } n
    | .Backreference n :: rest => match_backref fuel { m with re_iter := rest } n
    | r0 :: rest =>
      match m.text_iter with
      | t0 :: ts =>
        match match_char t0 r0 with
        | .ok b =>
          if b then
            match_here fuel
              { text_iter := ts, re_iter := rest,
                backreferences := push_active m.backreferences t0,
                matched := m.matched.push t0 }
          else .nomatch
        | .abort k => .abort k
        | .spin => .spin
      | [] =>
        match r0 with
        | .AnchorEnd => .found m.into_result
        | _ => .nomatch
termination_by structural fuel

/-- `Matcher::match_quant_greedy`: greedy expansion with backtracking. -/
def match_quant_greedy (fuel : Nat) (m : Matcher) (item : ReItem)
    (mn mx : Nat) : MRes :=
  match fuel with
  | 0 => .spin
  | fuel + 1 =>
    if mx = 0 then .nomatch
    else
      match match_here fuel
          { text_iter := m.text_iter, re_iter := [item],
            backreferences := m.backreferences, matched := "" } with
      | .abort k => .abort k
      | .spin => .spin
      | .found sr =>
        match match_quant_greedy fuel
            { text_iter := sr.remainder, re_iter := m.re_iter,
              backreferences := sr.backreferences,
              matched := m.matched ++ sr.matched } item (mn - 1) (mx - 1) with
        | .nomatch =>
          match_here fuel
            { text_iter := sr.remainder, re_iter := m.re_iter,
              backreferences := sr.backreferences,
              matched := m.matched ++ sr.matched }
        | .found r => .found r
        | .abort k => .abort k
        | .spin => .spin
      | .nomatch => if mn = 0 then match_here fuel m else .nomatch
termination_by structural fuel

/-- `Matcher::match_group` head: activate capture buffer `n` (a Rust
index expression, which panics out of bounds), then try the alternatives. -/
def match_group (fuel : Nat) (m : Matcher) (n : Nat) (alts : List Phrase) : MRes :=
  match fuel with
  | 0 => .spin
  | fuel + 1 =>
    match m.backreferences.get? n with
    | some br =>
      match_group_alts fuel
        { m with backreferences := m.backreferences.set n { br with active := true } }
        n alts
    | none => .abort .indexOutOfBounds
termination_by structural fuel

/-- The `for phrase in alts` loop of `Matcher::match_group`: try each
alternative, extended with a `GroupEnd` marker and the outer remainder. -/
def match_group_alts (fuel : Nat) (m : Matcher) (n : Nat) (alts : List Phrase) : MRes :=
  match fuel with
  | 0 => .spin
  | fuel + 1 =>
    match alts with
    | [] => .nomatch
    | phrase :: alts' =>
      match match_here fuel
          { text_iter := m.text_iter,
            re_iter := phrase ++ .GroupEnd n :: m.re_iter,
            backreferences := m.backreferences, matched := m.matched } with
      | .nomatch => match_group_alts fuel m n alts'
      | .found r => .found r
      | .abort k => .abort k
      | .spin => .spin
termination_by structural fuel

/-- `Matcher::match_group_end`: deactivate capture buffer `n` (again a
panicking index expression) and continue. -/
def match_group_end (fuel : Nat) (m : Matcher) (n : Nat) : MRes :=
  match fuel with
  | 0 => .spin
  | fuel + 1 =>
    match m.backreferences.get? n with
    | some br =>
      match_here fuel
        { m with backreferences := m.backreferences.set n { br with active := false } }
    | none => .abort .indexOutOfBounds
termination_by structural fuel

/-- `Matcher::match_backref`: a safe `.get`; a missing buffer is a silent
match failure, a present one replays its captured text literally. -/
def match_backref (fuel : Nat) (m : Matcher) (n : Nat) : MRes :=
  match fuel with
  | 0 => .spin
  | fuel + 1 =>
    match m.backreferences.get? n with
    | some br =>
      match_here fuel
        { m with re_iter := br.value.data.map ReItem.Char ++ m.re_iter }
    | none => .nomatch
termination_by structural fuel

end

/-- The unanchored scan loop of `Matcher::match_phrase`: try `match_here`
at the current position, else drop one character and retry. -/
def match_scan (fuel : Nat) (m : Matcher) : MRes :=
  match fuel with
  | 0 => .spin
  | fuel + 1 =>
    match match_here fuel m with
    | .nomatch =>
      match m.text_iter with
      | [] => .nomatch
      | _ :: ts => match_scan fuel { m with text_iter := ts }
    | .found r => .found r
    | .abort k => .abort k
    | .spin => .spin

/-- `Matcher::match_phrase`: consume a leading `AnchorStart` and match in
place, otherwise scan. -/
def match_phrase (fuel : Nat) (m : Matcher) : MRes :=
  match m.re_iter with
  | .AnchorStart :: rest => match_here fuel { m with re_iter := rest }
  | _ => match_scan fuel m

/-- The `for phrase in compile_result.phrases` loop of `match_pattern`. -/
def match_pattern_go (fuel : Nat) (text : List Char) (groups : Nat) :
    List Phrase → CRes (Option String)
  | [] => .ok none
  | phrase :: rest =>
    match match_phrase fuel
        { text_iter := text, re_iter := phrase,
          backreferences := List.replicate groups Backref.new, matched := "" } with
    | .found r => .ok (some r.matched)
    | .nomatch => match_pattern_go fuel text groups rest
    | .abort k => .abort k
    | .spin => .spin

/-- Fuel budget amply covering the matcher's recursion depth on the small
concrete inputs the claims evaluate. -/
def match_fuel (text re : String) : Nat := (text.length + 2) * (re.length + 2) * 8

/-- `match_pattern`: compile, then try each top-level phrase in order. -/
def match_pattern (text re : String) : CRes (Option String) :=
  match compile re with
  | .abort k => .abort k
  | .spin => .spin
  | .ok cr => match_pattern_go (match_fuel text re) text.data cr.groups cr.phrases

/-- The three abort kinds of `match_char`'s fail-fast branches for items
the matching engine is supposed to handle structurally (`Group`,
`GroupEnd`, `Backreference`). -/
def structural_branch_abort : AbortKind → Bool
  | .groupNotMatchable => true
  | .groupEndNotMatchable => true
  | .backrefNotMatchable => true
  | _ => false

/-- A matcher outcome that is not an abort from one of `match_char`'s
structural-item branches. -/
def MRes.clean : MRes → Bool
  | .abort k => !structural_branch_abort k
  | _ => true

/-- A program outcome that is not an abort from one of `match_char`'s
structural-item branches. -/
def CRes.clean {α : Type} : CRes α → Bool
  | .abort k => !structural_branch_abort k
  | _ => true

/-- Whether an item is one of the three postfix quantifier markers. -/
def is_quant_marker : ReItem → Bool
  | .QuantZeroPlus | .QuantOnePlus | .QuantZeroOrOne => true
  | _ => false

/-- Whether a pattern-item list begins with a quantifier marker (the
`peek` test performed by `match_here` right after consuming an item). -/
def head_is_quant : List ReItem → Bool
  | i :: _ => is_quant_marker i
  | [] => false

/-! ## Helper lemmas -/

/-- A branch on a boolean whose true leg is clean and whose false leg is
`nomatch` is clean. -/
theorem clean_if (b : Bool) (x : MRes) (h : x.clean = true) :
    (if b then x else MRes.nomatch).clean = true := by
  cases b
  · rfl
  · exact h

/-- Transport cleanliness through an equation ending in `.abort`. -/
theorem mres_clean_abort {x : MRes} {k : AbortKind} (h : x.clean = true)
    (he : x = .abort k) : (MRes.abort k).clean = true := he ▸ h

/-- Transport cleanliness through an equation ending in `.abort`, across
the result types of the compiler pipeline. -/
theorem cres_clean_abort {α β : Type} {x : CRes α} {k : AbortKind}
    (h : x.clean = true) (he : x = .abort k) :
    (CRes.abort (α := β) k).clean = true := by
  subst he; exact h

/-! ## Claim theorems -/

/-- C1 counterexample: on empty text the empty pattern does NOT produce a
successful empty match; `match_pattern "" ""` returns no match, because
`compile ""` produces zero phrases and the phrase loop of `match_pattern`
falls through. -/
theorem empty_pattern_counterexample :
    match_pattern "" "" ≠ CRes.ok (some "") := by decide

/-- C1 (amended): for every input text, matching the empty pattern string
returns no match: the compiled empty pattern has an empty list of
alternative phrases, so `match_pattern` never attempts any phrase and
returns `None`. -/
theorem empty_pattern_matches_nothing (text : String) :
    match_pattern text "" = .ok none := rfl

/-- C2 counterexample: `compile` does not report a `']'` outside a
character class as a typed error value; it aborts the process
(`panic!("Error: found ']' outside of character class")`, modelled as the
`.abort` outcome). -/
theorem compile_stray_terminator_aborts :
    compile "]" = .abort .classTerminator := rfl

/-- C2 (amended): for each malformation class — a `]` outside a character
class, an undefined escape character (any escape other than `d`, `w`,
`\` or the digits 1–9 aborts, stated in general), a `\` inside a
character class, and input ending inside an open group — `compile`
detects the malformation and aborts via `panic!` with a site-specific
message; it never returns a typed error value to its caller. -/
theorem compile_malformed_input_aborts :
    compile "a]" = .abort .classTerminator
    ∧ (∀ (fuel : Nat) (items : List ReItem) (groups : Nat) (c : Char) (rest : List Char),
        ¬(c = 'd' ∨ c = 'w' ∨ c = '\\' ∨ ('1' ≤ c ∧ c ≤ '9')) →
        compile_phrase (fuel + 1) .Escaped items groups (c :: rest) =
          .abort (.invalidEscape c))
    ∧ compile "\\x" = .abort (.invalidEscape 'x')
    ∧ compile "[ab\\c]" = .abort (.classEscape '\\')
    ∧ compile "(a" = .abort .groupNotClosed := by
  refine ⟨rfl, ?_, rfl, rfl, rfl⟩
  intro fuel items groups c rest h
  push_neg at h
  obtain ⟨hd, hw, hb, hr⟩ := h
  simp only [compile_phrase, if_neg hd, if_neg hw, if_neg hb]
  rw [if_neg]
  intro hc
  exact absurd hc.2 (by simpa using hr hc.1)

/-- C2 witness: the general undefined-escape conjunct applied at the
concrete escape character `x`. -/
theorem compile_malformed_input_aborts_witness :
    compile_phrase 1 .Escaped [] 0 ['x'] = .abort (.invalidEscape 'x') :=
  compile_malformed_input_aborts.2.1 0 [] 0 'x' [] (by decide)

/-- In the default or beginning state a leading `|` ends the phrase
immediately, consuming nothing. -/
theorem compile_phrase_stops_at_pipe (fuel : Nat) (st : CompileState)
    (items : List ReItem) (groups : Nat) (cs : List Char)
    (h : st = .None ∨ st = .Beginning) :
    compile_phrase fuel st items groups ('|' :: cs) = .spin ∨
    compile_phrase fuel st items groups ('|' :: cs) = .ok (items, groups, '|' :: cs) := by
  cases fuel with
  | zero => exact .inl rfl
  | succ fuel => rcases h with h | h <;> subst h <;> exact .inr rfl

/-- The top-level compile loop makes no progress on input beginning with
`|`: whatever the fuel, it spins (`compile_phrase` returns the empty
phrase without consuming the `|`, and the loop re-enters with the same
input). -/
theorem compile_loop_pipe_spins (cs : List Char) :
    ∀ (fuel groups : Nat) (phrases : List Phrase),
      compile_loop fuel groups phrases ('|' :: cs) = .spin := by
  intro fuel
  induction fuel with
  | zero => intro g p; rfl
  | succ fuel ih =>
    intro g p
    rcases compile_phrase_stops_at_pipe fuel .Beginning [] g cs (Or.inr rfl) with h | h <;>
      simp only [compile_loop, h]
    exact ih g (p ++ [[]])

/-- C3 (code bug): on the pattern `a|b` — an un-grouped top-level `|` —
the compiler does not terminate for any fuel budget: the phrase compiler
leaves the `|` unconsumed and the top-level loop re-invokes it forever on
the same input, instead of rejecting the pattern with a compile error. -/
theorem compile_toplevel_alternation_spins :
    (∀ (fuel groups : Nat) (phrases : List Phrase),
      compile_loop fuel groups phrases "a|b".data = .spin)
    ∧ compile "a|b" = .spin := by
  have main : ∀ (fuel groups : Nat) (phrases : List Phrase),
      compile_loop fuel groups phrases "a|b".data = .spin := by
    intro fuel g p
    show compile_loop fuel g p ('a' :: '|' :: 'b' :: []) = .spin
    match fuel with
    | 0 => rfl
    | 1 => rfl
    | fuel + 2 =>
      have h := compile_phrase_stops_at_pipe fuel .Beginning [ReItem.Char 'a'] g ['b']
        (Or.inr rfl)
      have step : compile_phrase (fuel + 1) .Beginning [] g ('a' :: '|' :: 'b' :: []) =
          compile_phrase fuel .Beginning [ReItem.Char 'a'] g ('|' :: 'b' :: []) := rfl
      rcases h with h | h <;> simp only [compile_loop, step, h]
      exact compile_loop_pipe_spins ['b'] (fuel + 1) g (p ++ [[ReItem.Char 'a']])
  exact ⟨main, main (compile_fuel "a|b") 0 []⟩

set_option maxHeartbeats 1000000 in
/-- C4: the backreference `\1` replays the text captured by group 0
literally: `(abc)\1` matches `abcabc` fully and fails on `abcxyz`. -/
theorem backreference_replays_captured_text :
    match_pattern "abcabc" "(abc)\\1" = .ok (some "abcabc")
    ∧ match_pattern "abcxyz" "(abc)\\1" = .ok none := ⟨rfl, rfl⟩

/-- C5: greedy quantifier expansion with one-unit backtracking:
`a*a` on text `aaa` consumes all three `a`s, gives one back for the
mandatory final `a`, and reports the full match `aaa`. -/
theorem greedy_quantifier_backtracks :
    match_pattern "aaa" "a*a" = .ok (some "aaa") := rfl

/-- C6: `match_here` maps the quantifier markers to the repeat bounds
`*` → (0, usize::MAX), `+` → (1, usize::MAX), `?` → (0, 1), and
consequently the empty text matches `a*` (zero repetitions) but not
`a+`, and `a+b` matches `aaab` fully. -/
theorem quantifier_bounds :
    (∀ (fuel : Nat) (t : List Char) (brs : List Backref) (mat : String)
        (r0 : ReItem) (rest : List ReItem),
      match_here (fuel + 1) ⟨t, r0 :: .QuantZeroPlus :: rest, brs, mat⟩ =
        match_quant_greedy fuel ⟨t, rest, brs, mat⟩ r0 0 usize_max)
    ∧ (∀ (fuel : Nat) (t : List Char) (brs : List Backref) (mat : String)
        (r0 : ReItem) (rest : List ReItem),
      match_here (fuel + 1) ⟨t, r0 :: .QuantOnePlus :: rest, brs, mat⟩ =
        match_quant_greedy fuel ⟨t, rest, brs, mat⟩ r0 1 usize_max)
    ∧ (∀ (fuel : Nat) (t : List Char) (brs : List Backref) (mat : String)
        (r0 : ReItem) (rest : List ReItem),
      match_here (fuel + 1) ⟨t, r0 :: .QuantZeroOrOne :: rest, brs, mat⟩ =
        match_quant_greedy fuel ⟨t, rest, brs, mat⟩ r0 0 1)
    ∧ match_pattern "" "a*" = .ok (some "")
    ∧ match_pattern "" "a+" = .ok none
    ∧ match_pattern "aaab" "a+b" = .ok (some "aaab") := by
  refine ⟨?_, ?_, ?_, rfl, rfl, rfl⟩ <;>
    · intro fuel t brs mat r0 rest
      cases r0 <;> rfl

/-- C7 (code bug): the compiler emits `AnchorStart` for a `^` that is not
the first character of a phrase, because the state machine stays in
`Beginning` after emitting items that do not reset the state: `a^b`
compiles to `[Char 'a', AnchorStart, Char 'b']`, and matching `a^b`
against the text `ab` then aborts inside `match_char`'s own
`AnchorStart` fail-fast branch. -/
theorem caret_after_literal_emits_anchor :
    compile "a^b" = .ok ⟨[[.Char 'a', .AnchorStart, .Char 'b']], 0⟩
    ∧ match_pattern "ab" "a^b" = .abort .anchorStartNotMatchable := ⟨rfl, rfl⟩

/-- C9: a backreference whose index has no corresponding capture buffer is
a silent match failure (`Vec::get` returns `None`), never a compile
error: `compile` accepts `\1` with zero groups, and matching simply
fails. -/
theorem dangling_backreference_fails_match :
    (∀ (fuel : Nat) (m : Matcher) (n : Nat), m.backreferences.length ≤ n →
      match_backref (fuel + 1) m n = .nomatch)
    ∧ compile "\\1" = .ok ⟨[[.Backreference 0]], 0⟩
    ∧ match_pattern "a" "\\1" = .ok none := by
  refine ⟨?_, rfl, rfl⟩
  intro fuel m n h
  simp only [match_backref, List.get?_eq_none.mpr h]

/-- C9 witness: the general conjunct applied to the empty buffer vector
at index 0. -/
theorem dangling_backreference_fails_match_witness :
    match_backref 1 ⟨[], [], [], ""⟩ 0 = .nomatch :=
  dangling_backreference_fails_match.1 0 ⟨[], [], [], ""⟩ 0 (by decide)

/-- C10: when the text is exhausted and the next pattern item is
`AnchorEnd` (not followed by a quantifier marker), `match_here` succeeds
immediately, ignoring any pattern items after the anchor; concretely,
`a$b` matches the text `a` with match `"a"` and the trailing `b` is never
required. -/
theorem end_anchor_succeeds_at_text_end :
    (∀ (fuel : Nat) (brs : List Backref) (mat : String) (rest : List ReItem),
      head_is_quant rest = false →
      match_here (fuel + 1) ⟨[], .AnchorEnd :: rest, brs, mat⟩ = .found ⟨mat, brs, []⟩)
    ∧ match_pattern "a" "a$b" = .ok (some "a") := by
  refine ⟨?_, rfl⟩
  intro fuel brs mat rest h
  cases rest with
  | nil => rfl
  | cons i rest2 =>
    cases i <;> first | rfl | simp [head_is_quant, is_quant_marker] at h

/-- C10 witness: the general conjunct applied at the concrete state
reached by matching `a$b` against `a` after the leading `a`. -/
theorem end_anchor_succeeds_at_text_end_witness :
    match_here 1 ⟨[], [.AnchorEnd, .Char 'b'], [], "a"⟩ = .found ⟨"a", [], []⟩ :=
  end_anchor_succeeds_at_text_end.1 0 [] "a" [.Char 'b'] (by decide)

/-- C8 counterexample: the quantifier-marker fail-fast branch of
`match_char` IS reachable from `match_pattern`: the pattern `*` compiles
to a lone `QuantZeroPlus` item, which `match_here` passes to `match_char`
as an ordinary item when text remains. -/
theorem match_char_quant_branch_reachable :
    match_pattern "a" "*" = .abort .quantZeroPlusNotMatchable := rfl

/-- An `if` between two clean outcomes is clean. -/
theorem clean_branch {α : Type} (p : Prop) [Decidable p] (a b : CRes α)
    (ha : a.clean = true) (hb : b.clean = true) : (if p then a else b).clean = true := by
  split
  · exact ha
  · exact hb

set_option maxHeartbeats 1000000 in
/-- Unfolding equation for `compile_phrase` in the default state. -/
theorem compile_phrase_succ_none (fuel : Nat) (items : List ReItem) (groups : Nat)
    (c : Char) (rest : List Char) :
    compile_phrase (fuel + 1) CompileState.None items groups (c :: rest) =
      (if c = '\\' then compile_phrase fuel .Escaped items groups rest
      else if c = '[' then compile_phrase fuel .CharClassStart items groups rest
      else if c = ']' then CRes.abort .classTerminator
      else if c = '^' then compile_phrase fuel .None (items ++ [.Char c]) groups rest
      else if c = '$' then compile_phrase fuel .None (items ++ [.AnchorEnd]) groups rest
      else if c = '*' then compile_phrase fuel .None (items ++ [.QuantZeroPlus]) groups rest
      else if c = '+' then compile_phrase fuel .None (items ++ [.QuantOnePlus]) groups rest
      else if c = '?' then compile_phrase fuel .None (items ++ [.QuantZeroOrOne]) groups rest
      else if c = '.' then compile_phrase fuel .None (items ++ [.Wildcard]) groups rest
      else if c = '(' then compile_phrase fuel .Group items groups rest
      else if c = '|' ∨ c = ')' then CRes.ok (items, groups, c :: rest)
      else compile_phrase fuel .None (items ++ [.Char c]) groups rest) := by
  rw [compile_phrase.eq_def]

set_option maxHeartbeats 1000000 in
/-- Unfolding equation for `compile_phrase` in the beginning-of-phrase
state: identical to the default state except that `^` emits `AnchorStart`
and the state is preserved by items that do not reset it. -/
theorem compile_phrase_succ_beginning (fuel : Nat) (items : List ReItem) (groups : Nat)
    (c : Char) (rest : List Char) :
    compile_phrase (fuel + 1) CompileState.Beginning items groups (c :: rest) =
      (if c = '\\' then compile_phrase fuel .Escaped items groups rest
      else if c = '[' then compile_phrase fuel .CharClassStart items groups rest
      else if c = ']' then CRes.abort .classTerminator
      else if c = '^' then compile_phrase fuel .None (items ++ [.AnchorStart]) groups rest
      else if c = '$' then compile_phrase fuel .Beginning (items ++ [.AnchorEnd]) groups rest
      else if c = '*' then compile_phrase fuel .Beginning (items ++ [.QuantZeroPlus]) groups rest
      else if c = '+' then compile_phrase fuel .Beginning (items ++ [.QuantOnePlus]) groups rest
      else if c = '?' then compile_phrase fuel .Beginning (items ++ [.QuantZeroOrOne]) groups rest
      else if c = '.' then compile_phrase fuel .Beginning (items ++ [.Wildcard]) groups rest
      else if c = '(' then compile_phrase fuel .Group items groups rest
      else if c = '|' ∨ c = ')' then CRes.ok (items, groups, c :: rest)
      else compile_phrase fuel .Beginning (items ++ [.Char c]) groups rest) := by
  rw [compile_phrase.eq_def]

set_option maxHeartbeats 1000000 in
/-- Unfolding equation for `compile_phrase` in the escaped state. -/
theorem compile_phrase_succ_escaped (fuel : Nat) (items : List ReItem) (groups : Nat)
    (c : Char) (rest : List Char) :
    compile_phrase (fuel + 1) CompileState.Escaped items groups (c :: rest) =
      (if c = 'd' then compile_phrase fuel .None (items ++ [.Digit]) groups rest
      else if c = 'w' then compile_phrase fuel .None (items ++ [.Alphanum]) groups rest
      else if c = '\\' then compile_phrase fuel .None (items ++ [.Char c]) groups rest
      else if '1' ≤ c ∧ c ≤ '9' then
        compile_phrase fuel .None
          (items ++ [.Backreference (c.toNat - '0'.toNat - 1)]) groups rest
      else CRes.abort (.invalidEscape c)) := by
  rw [compile_phrase.eq_def]

set_option maxHeartbeats 1000000 in
/-- Unfolding equation for `compile_phrase` at the start of a character
class. -/
theorem compile_phrase_succ_class_start (fuel : Nat) (items : List ReItem) (groups : Nat)
    (c : Char) (rest : List Char) :
    compile_phrase (fuel + 1) CompileState.CharClassStart items groups (c :: rest) =
      (if c = ']' then compile_phrase fuel .None items groups rest
      else if c = '^' then compile_phrase fuel (.NegCharClass "") items groups rest
      else compile_phrase fuel (.CharClass (String.singleton c)) items groups rest) := by
  rw [compile_phrase.eq_def]

set_option maxHeartbeats 1000000 in
/-- Unfolding equation for `compile_phrase` inside a character class. -/
theorem compile_phrase_succ_class (fuel : Nat) (s : String) (items : List ReItem)
    (groups : Nat) (c : Char) (rest : List Char) :
    compile_phrase (fuel + 1) (CompileState.CharClass s) items groups (c :: rest) =
      (if c = ']' then compile_phrase fuel .None (items ++ [.CharClass s]) groups rest
      else if c = '\\' then CRes.abort (.classEscape c)
      else compile_phrase fuel (.CharClass (s.push c)) items groups rest) := by
  rw [compile_phrase.eq_def]

set_option maxHeartbeats 1000000 in
/-- Unfolding equation for `compile_phrase` inside a negated character
class. -/
theorem compile_phrase_succ_neg_class (fuel : Nat) (s : String) (items : List ReItem)
    (groups : Nat) (c : Char) (rest : List Char) :
    compile_phrase (fuel + 1) (CompileState.NegCharClass s) items groups (c :: rest) =
      (if c = ']' then compile_phrase fuel .None (items ++ [.NegCharClass s]) groups rest
      else if c = '\\' then CRes.abort (.classEscape c)
      else compile_phrase fuel (.NegCharClass (s.push c)) items groups rest) := by
  rw [compile_phrase.eq_def]

set_option maxHeartbeats 1000000 in
/-- Unfolding equation for `compile_phrase` in the group state. -/
theorem compile_phrase_succ_group (fuel : Nat) (items : List ReItem) (groups : Nat)
    (c : Char) (rest : List Char) :
    compile_phrase (fuel + 1) CompileState.Group items groups (c :: rest) =
      (match compile_group_loop fuel (groups + 1) [] (c :: rest) with
      | CRes.abort k => CRes.abort k
      | CRes.spin => CRes.spin
      | CRes.ok (grp, groups2, rest2) =>
        compile_phrase fuel .None (items ++ [.Group groups grp]) groups2
          (rest2.drop 1)) := by
  rw [compile_phrase.eq_def]

set_option maxHeartbeats 1000000 in
/-- Unfolding equation for `compile_group_loop`. -/
theorem compile_group_loop_succ (fuel groups : Nat) (grp : List Phrase)
    (input : List Char) :
    compile_group_loop (fuel + 1) groups grp input =
      (match compile_phrase fuel .Beginning [] groups input with
      | CRes.abort k => CRes.abort k
      | CRes.spin => CRes.spin
      | CRes.ok (phrase, groups2, rest) =>
        match rest with
        | [] => CRes.abort .groupNotClosed
        | c :: rest2 =>
          if c = '|' then compile_group_loop fuel groups2 (grp ++ [phrase]) rest2
          else if c = ')' then CRes.ok (grp ++ [phrase], groups2, c :: rest2)
          else CRes.abort (.invalidGroupClose c)) := by
  rw [compile_group_loop.eq_def]

/-- Neither `compile_phrase` nor `compile_group_loop` ever produces one of
the structural-branch aborts (their panics are all compile-time kinds). -/
theorem compiler_clean : ∀ fuel : Nat,
    (∀ (st : CompileState) (items : List ReItem) (groups : Nat) (input : List Char),
      (compile_phrase fuel st items groups input).clean = true)
    ∧ (∀ (groups : Nat) (grp : List Phrase) (input : List Char),
      (compile_group_loop fuel groups grp input).clean = true) := by
  intro fuel
  induction fuel with
  | zero => exact ⟨fun _ _ _ _ => rfl, fun _ _ _ => rfl⟩
  | succ fuel ih =>
    obtain ⟨ihP, ihG⟩ := ih
    constructor
    · intro st items groups input
      rcases input with _ | ⟨c, rest⟩
      · rfl
      · cases st
        case None =>
          rw [compile_phrase_succ_none]
          apply clean_branch _ _ _ (ihP _ _ _ _)
          apply clean_branch _ _ _ (ihP _ _ _ _)
          apply clean_branch _ _ _ (by rfl)
          apply clean_branch _ _ _ (ihP _ _ _ _)
          apply clean_branch _ _ _ (ihP _ _ _ _)
          apply clean_branch _ _ _ (ihP _ _ _ _)
          apply clean_branch _ _ _ (ihP _ _ _ _)
          apply clean_branch _ _ _ (ihP _ _ _ _)
          apply clean_branch _ _ _ (ihP _ _ _ _)
          apply clean_branch _ _ _ (ihP _ _ _ _)
          apply clean_branch _ _ _ (by rfl)
          exact ihP _ _ _ _
        case Beginning =>
          rw [compile_phrase_succ_beginning]
          apply clean_branch _ _ _ (ihP _ _ _ _)
          apply clean_branch _ _ _ (ihP _ _ _ _)
          apply clean_branch _ _ _ (by rfl)
          apply clean_branch _ _ _ (ihP _ _ _ _)
          apply clean_branch _ _ _ (ihP _ _ _ _)
          apply clean_branch _ _ _ (ihP _ _ _ _)
          apply clean_branch _ _ _ (ihP _ _ _ _)
          apply clean_branch _ _ _ (ihP _ _ _ _)
          apply clean_branch _ _ _ (ihP _ _ _ _)
          apply clean_branch _ _ _ (ihP _ _ _ _)
          apply clean_branch _ _ _ (by rfl)
          exact ihP _ _ _ _
        case Escaped =>
          rw [compile_phrase_succ_escaped]
          apply clean_branch _ _ _ (ihP _ _ _ _)
          apply clean_branch _ _ _ (ihP _ _ _ _)
          apply clean_branch _ _ _ (ihP _ _ _ _)
          apply clean_branch _ _ _ (ihP _ _ _ _)
          rfl
        case CharClassStart =>
          rw [compile_phrase_succ_class_start]
          apply clean_branch _ _ _ (ihP _ _ _ _)
          apply clean_branch _ _ _ (ihP _ _ _ _)
          exact ihP _ _ _ _
        case CharClass s =>
          rw [compile_phrase_succ_class]
          apply clean_branch _ _ _ (ihP _ _ _ _)
          apply clean_branch _ _ _ (by rfl)
          exact ihP _ _ _ _
        case NegCharClass s =>
          rw [compile_phrase_succ_neg_class]
          apply clean_branch _ _ _ (ihP _ _ _ _)
          apply clean_branch _ _ _ (by rfl)
          exact ihP _ _ _ _
        case Group =>
          rw [compile_phrase_succ_group]
          split
          · rename_i k heq
            exact cres_clean_abort (ihG _ _ _) heq
          · rfl
          · exact ihP _ _ _ _
    · intro groups grp input
      rw [compile_group_loop_succ]
      split
      · rename_i k heq
        exact cres_clean_abort (ihP _ _ _ _) heq
      · rfl
      · split
        · rfl
        · apply clean_branch _ _ _ (ihG _ _ _)
          apply clean_branch _ _ _ (by rfl)
          rfl

set_option maxHeartbeats 4000000 in
/-- No matcher function ever produces one of the structural-branch aborts:
`match_here` dispatches `Group`, `GroupEnd` and `Backreference` items
structurally and never passes them to `match_char`. -/
theorem matcher_clean : ∀ fuel : Nat,
    (∀ m : Matcher, (match_here fuel m).clean = true)
    ∧ (∀ (m : Matcher) (item : ReItem) (mn mx : Nat),
        (match_quant_greedy fuel m item mn mx).clean = true)
    ∧ (∀ (m : Matcher) (n : Nat) (alts : List Phrase),
        (match_group fuel m n alts).clean = true)
    ∧ (∀ (m : Matcher) (n : Nat) (alts : List Phrase),
        (match_group_alts fuel m n alts).clean = true)
    ∧ (∀ (m : Matcher) (n : Nat), (match_group_end fuel m n).clean = true)
    ∧ (∀ (m : Matcher) (n : Nat), (match_backref fuel m n).clean = true) := by
  intro fuel
  induction fuel with
  | zero =>
    exact ⟨fun _ => rfl, fun _ _ _ _ => rfl, fun _ _ _ => rfl, fun _ _ _ => rfl,
      fun _ _ => rfl, fun _ _ => rfl⟩
  | succ fuel ih =>
    obtain ⟨ihH, ihQ, ihG, ihA, ihE, ihB⟩ := ih
    refine ⟨?_, ?_, ?_, ?_, ?_, ?_⟩
    · intro m
      obtain ⟨t, re, brs, mat⟩ := m
      rcases re with _ | ⟨r0, _ | ⟨i, rest2⟩⟩
      · rfl
      · cases r0 <;>
          first
            | exact ihG _ _ _
            | exact ihE _ _
            | exact ihB _ _
            | (cases t <;>
                first | rfl | exact ihH _ | exact clean_if _ _ (ihH _))
      · cases i <;> cases r0 <;>
          first
            | exact ihQ _ _ _ _
            | exact ihG _ _ _
            | exact ihE _ _
            | exact ihB _ _
            | (cases t <;>
                first | rfl | exact ihH _ | exact clean_if _ _ (ihH _))
    · intro m item mn mx
      simp only [match_quant_greedy]
      split
      · rfl
      · split
        · rename_i k heq
          exact mres_clean_abort (ihH _) heq
        · rfl
        · rename_i sr heq
          split
          · exact ihH _
          · rfl
          · rename_i k heq2
            exact mres_clean_abort (ihQ _ _ _ _) heq2
          · rfl
        · split
          · exact ihH _
          · rfl
    · intro m n alts
      simp only [match_group]
      split
      · exact ihA _ _ _
      · rfl
    · intro m n alts
      simp only [match_group_alts]
      split
      · rfl
      · split
        · exact ihA _ _ _
        · rfl
        · rename_i k heq
          exact mres_clean_abort (ihH _) heq
        · rfl
    · intro m n
      simp only [match_group_end]
      split
      · exact ihH _
      · rfl
    · intro m n
      simp only [match_backref]
      split
      · exact ihH _
      · rfl

/-- The unanchored scan never produces a structural-branch abort. -/
theorem match_scan_clean (fuel : Nat) (m : Matcher) : (match_scan fuel m).clean = true := by
  induction fuel generalizing m with
  | zero => rfl
  | succ fuel ih =>
    simp only [match_scan]
    split
    · split
      · rfl
      · exact ih _
    · rfl
    · rename_i k heq
      exact mres_clean_abort ((matcher_clean fuel).1 _) heq
    · rfl

/-- A whole phrase match never produces a structural-branch abort. -/
theorem match_phrase_clean (fuel : Nat) (m : Matcher) : (match_phrase fuel m).clean = true := by
  simp only [match_phrase]
  split
  · exact (matcher_clean fuel).1 _
  · exact match_scan_clean fuel _

/-- The phrase loop of `match_pattern` never produces a structural-branch
abort. -/
theorem match_pattern_go_clean (fuel : Nat) (text : List Char) (groups : Nat)
    (phrases : List Phrase) : (match_pattern_go fuel text groups phrases).clean = true := by
  induction phrases with
  | nil => rfl
  | cons ph rest ih =>
    simp only [match_pattern_go]
    split
    · rfl
    · exact ih
    · rename_i k heq
      exact mres_clean_abort (match_phrase_clean fuel _) heq
    · rfl

/-- The top-level compile loop never produces a structural-branch abort. -/
theorem compile_loop_clean (fuel groups : Nat) (phrases : List Phrase) (input : List Char) :
    (compile_loop fuel groups phrases input).clean = true := by
  induction fuel generalizing groups phrases input with
  | zero => rfl
  | succ fuel ih =>
    simp only [compile_loop]
    split
    · rfl
    · split
      · rename_i k heq
        exact cres_clean_abort ((compiler_clean fuel).1 _ _ _ _) heq
      · rfl
      · exact ih _ _ _

/-- C8 (amended): for every input text and pattern, `match_pattern` never
reaches the `Group`, `GroupEnd` or `Backreference` fail-fast branches of
`match_char` — those items are always dispatched structurally by
`match_here` — although the `StartAnchor` and quantifier-marker branches
are reachable. -/
theorem match_pattern_structural_branches_unreachable (text re : String) :
    (match_pattern text re).clean = true := by
  simp only [match_pattern]
  split
  · rename_i k heq
    exact cres_clean_abort (compile_loop_clean (compile_fuel re) 0 [] re.data) heq
  · rfl
  · exact match_pattern_go_clean _ _ _ _

/-! ## Further testable properties of the spec, as sanity checks of the
embedding -/

/-- Anchored matching: `^abc$` matches exactly `abc` and rejects `xabc`. -/
theorem anchored_match_sanity :
    match_pattern "abc" "^abc$" = .ok (some "abc")
    ∧ match_pattern "xabc" "^abc$" = .ok none := ⟨rfl, rfl⟩

/-- Grouping with alternation: `(cat|dog)` accepts `cat` and rejects
`fox`. -/
theorem group_alternation_sanity :
    match_pattern "cat" "(cat|dog)" = .ok (some "cat")
    ∧ match_pattern "fox" "(cat|dog)" = .ok none := ⟨rfl, rfl⟩

/-- Character classes: `\d` accepts a digit, `[^abc]` rejects a member
and accepts a non-member. -/
theorem char_class_sanity :
    match_pattern "3" "\\d" = .ok (some "3")
    ∧ match_pattern "a" "[^abc]" = .ok none
    ∧ match_pattern "d" "[^abc]" = .ok (some "d") := ⟨rfl, rfl, rfl⟩

/-- Shape of a compiled group-plus-backreference pattern. -/
theorem compile_group_backref_sanity :
    compile "(abc)\\1" =
      .ok ⟨[[.Group 0 [[.Char 'a', .Char 'b', .Char 'c']], .Backreference 0]], 1⟩ := rfl
